import Mathlib

/-!
Verification development for the `vmware.vmware` snapshot module and REST
client. The definitions below are a shallow embedding of
`plugins/modules/vm_snapshot.py` and
`plugins/module_utils/clients/_rest.py`: Python objects become Lean
structures, Python exceptions become `Except` error values, and the
vendor SDK calls (CreateSnapshot, RenameSnapshot, task monitoring,
client creation) become oracle inputs supplied through environment
records.
-/

namespace VmwareVmware

/-- One vendor-reported snapshot tree node (`vim.vm.SnapshotTree`): `id`,
`name`, the managed-object handle exposed by its `.snapshot` attribute
(modelled as a `Nat` reference), and the ordered `childSnapshotList`. -/
inductive Snapshot where
  | mk (id : Int) (name : String) (snapshotRef : Nat)
       (childSnapshotList : List Snapshot)
  deriving Repr

def Snapshot.id : Snapshot → Int
  | .mk i _ _ _ => i

def Snapshot.name : Snapshot → String
  | .mk _ n _ _ => n

def Snapshot.snapshotRef : Snapshot → Nat
  | .mk _ _ r _ => r

def Snapshot.childSnapshotList : Snapshot → List Snapshot
  | .mk _ _ _ c => c

/-- Embedding of `VmSnapshotModule.get_snapshots_by_name_recursively`:
for each node in order, if its `name` equals `snapname` it is appended
and its children are NOT visited (the Python `else` branch); otherwise
the children are searched recursively. -/
def getSnapshotsByNameRecursively : List Snapshot → String → List Snapshot
  | [], _ => []
  | Snapshot.mk i n r c :: rest, snapname =>
      (if n = snapname then [Snapshot.mk i n r c]
       else getSnapshotsByNameRecursively c snapname)
        ++ getSnapshotsByNameRecursively rest snapname

/-- Embedding of `VmSnapshotModule.get_snapshots_by_id_recursively`:
identical to the name search except that it matches on `id`. -/
def getSnapshotsByIdRecursively : List Snapshot → Int → List Snapshot
  | [], _ => []
  | Snapshot.mk i n r c :: rest, snapid =>
      (if i = snapid then [Snapshot.mk i n r c]
       else getSnapshotsByIdRecursively c snapid)
        ++ getSnapshotsByIdRecursively rest snapid

/-- The common traversal shape of the two searches, parameterised by the
node predicate. Used to state that the name search and the id search are
the same algorithm instantiated at different fields. -/
def searchSnapshotTree (p : Snapshot → Bool) : List Snapshot → List Snapshot
  | [] => []
  | Snapshot.mk i n r c :: rest =>
      (if p (Snapshot.mk i n r c) then [Snapshot.mk i n r c]
       else searchSnapshotTree p c)
        ++ searchSnapshotTree p rest

/-- The nodes the traversal actually tests, in visit order: every node
is tested, but the children of a node satisfying `p` are pruned. -/
def visitedSnapshots (p : Snapshot → Bool) : List Snapshot → List Snapshot
  | [] => []
  | Snapshot.mk i n r c :: rest =>
      Snapshot.mk i n r c ::
        ((if p (Snapshot.mk i n r c) then [] else visitedSnapshots p c)
          ++ visitedSnapshots p rest)

/-- All nodes of a snapshot forest, at every depth. -/
def allNodes : List Snapshot → List Snapshot
  | [] => []
  | Snapshot.mk i n r c :: rest =>
      Snapshot.mk i n r c :: (allNodes c ++ allNodes rest)

/-- `OccursVia anc s T`: node `s` occurs somewhere in the forest `T`,
and `anc` is the list of its proper ancestors inside `T`, nearest
ancestor first. -/
inductive OccursVia : List Snapshot → Snapshot → List Snapshot → Prop where
  | base {s : Snapshot} {T : List Snapshot} : s ∈ T → OccursVia [] s T
  | step {p s : Snapshot} {anc : List Snapshot} {T : List Snapshot} :
      p ∈ T → OccursVia anc s p.childSnapshotList → OccursVia (p :: anc) s T

/-! Concrete nodes used by counterexample theorems. -/

/-- A child snapshot named `a`, nested below another node named `a`. -/
def exChild : Snapshot := Snapshot.mk 2 "a" 20 []

/-- A root snapshot named `a` whose only child is also named `a`. -/
def exRoot : Snapshot := Snapshot.mk 1 "a" 10 [exChild]

/-! ## The snapshot module: parameters, resolver and constructor -/

/-- Python truthiness of an optional string parameter (`None` and the
empty string are falsy). -/
def truthyStr : Option String → Bool
  | none => false
  | some s => s != ""

/-- Python truthiness of an optional int parameter (`None` and `0` are
falsy). -/
def truthyInt : Option Int → Bool
  | none => false
  | some i => i != 0

/-- `%s` rendering of a possibly-`None` Python string. -/
def pyStrOpt : Option String → String
  | none => "None"
  | some s => s

/-- The five values admitted by the module's `state` argument spec. -/
inductive SnapState where
  | present
  | absent
  | rename
  | revert
  | remove_all
  deriving DecidableEq, Repr

/-- The Python string of a `state` value. -/
def stateText : SnapState → String
  | .present => "present"
  | .absent => "absent"
  | .rename => "rename"
  | .revert => "revert"
  | .remove_all => "remove_all"

/-- The module parameters consumed by `VmSnapshotModule` (after the
argument-spec validation in `main`). -/
structure Params where
  state : SnapState
  name : Option String
  uuid : Option String
  moid : Option String
  snapshot_name : Option String
  snapshot_id : Option Int
  description : String
  quiesce : Bool
  memory_dump : Bool
  remove_children : Bool
  new_snapshot_name : Option String
  new_description : Option String
  deriving Repr

/-- VM capability flags read by `snapshot_vm`. -/
structure Capability where
  memorySnapshotsSupported : Bool
  quiescedSnapshotsSupported : Bool
  deriving DecidableEq, Repr

/-- The `vm.snapshot` attribute: present iff the VM has snapshots, with
the root list of the snapshot tree. -/
structure SnapshotInfo where
  rootSnapshotList : List Snapshot
  deriving Repr

/-- A pyVmomi VM handle, restricted to the attributes this module
reads. -/
structure VmHandle where
  snapshot : Option SnapshotInfo
  capability : Capability
  deriving Repr

/-- Python exceptions that escape the module's own handlers. -/
inductive PyErr where
  | attributeError (msg : String)
  | typeError (msg : String)
  deriving DecidableEq, Repr

/-- Embedding of `VmSnapshotModule.get_snapshots_recursively`: a name
selector wins; an id selector is consulted only for `absent`/`revert`;
otherwise the Python function falls through and implicitly returns
`None`, modelled as `none`. -/
def getSnapshotsRecursively (p : Params) (rootSnapshotList : List Snapshot) :
    Option (List Snapshot) :=
  if truthyStr p.snapshot_name then
    some (getSnapshotsByNameRecursively rootSnapshotList
      (p.snapshot_name.getD ""))
  else if truthyInt p.snapshot_id
      ∧ (p.state = SnapState.absent ∨ p.state = SnapState.revert) then
    some (getSnapshotsByIdRecursively rootSnapshotList
      (p.snapshot_id.getD 0))
  else
    none

/-- The disambiguation in `VmSnapshotModule.__init__`: when the search
produced exactly one match, its `.snapshot` handle becomes the resolved
snapshot; otherwise the resolved snapshot is `None`. -/
def disambiguateSnapshot (found : List Snapshot) : Option Nat :=
  match found with
  | [m] => some m.snapshotRef
  | _ => none

/-- The `snap_object` computation at the top of
`VmSnapshotModule.__init__`, operating on whatever `self.vm` holds at
that point. `vm = none` models the attribute being unset (the
constructor calls `super(ModulePyvmomiBase, self).__init__`, bypassing
the `ModulePyvmomiBase` initializer), in which case reading
`self.vm.snapshot` raises AttributeError; when
`get_snapshots_recursively` returns Python `None`, `len(None)` raises
TypeError. -/
def resolveSnapObject (p : Params) (vm : Option VmHandle) :
    Except PyErr (Option Nat) :=
  match vm with
  | none =>
      .error (.attributeError
        "VmSnapshotModule object has no attribute vm")
  | some vmh =>
    match vmh.snapshot with
    | none => .ok none
    | some info =>
      match getSnapshotsRecursively p info.rootSnapshotList with
      | none => .error (.typeError "object of type NoneType has no len()")
      | some found => .ok (disambiguateSnapshot found)

/-- The result dict accumulated by the module (`snapshot_results` holds
the handle of the refreshed projection returned by the external
`list_snapshots` collaborator). -/
structure ResultDict where
  changed : Bool
  renamed : Bool
  snapshot_results : Option Nat
  deriving DecidableEq, Repr

/-- `self.result` as initialised at the top of the constructor. -/
def initialResult : ResultDict :=
  { changed := false, renamed := false, snapshot_results := none }

/-- `self.vm_id = uuid or name or moid`, rendered with `%s` (Python
`None` prints as `"None"`). -/
def vmIdText (p : Params) : String :=
  if truthyStr p.uuid then pyStrOpt p.uuid
  else if truthyStr p.name then pyStrOpt p.name
  else pyStrOpt p.moid

/-- The attribute state produced by a successful run of the
constructor. -/
structure CtorState where
  result : ResultDict
  snapObject : Option Nat
  vm : VmHandle
  vmId : String
  deriving Repr

/-- How the constructor can end: an uncaught Python exception, a
`fail_json`, or normal completion. -/
inductive CtorOutcome where
  | pyError (e : PyErr)
  | failJson (msg : String)
  | ok (st : CtorState)
  deriving Repr

/-- Embedding of `VmSnapshotModule.__init__` in source line order:
`self.result` is initialised, `snap_object` is resolved from the
pre-lookup `self.vm`, and only then is `self.vm` assigned from
`get_vm_using_params` (whose returned first element is `lookup`;
`none` models a falsy element), followed by the VM and selector
checks. -/
def vmSnapshotInit (p : Params) (vm0 : Option VmHandle)
    (lookup : Option VmHandle) : CtorOutcome :=
  match resolveSnapObject p vm0 with
  | .error e => .pyError e
  | .ok snapObject =>
    match lookup with
    | none =>
        .failJson ("Unable to manage snapshots for non-existing VM "
          ++ vmIdText p)
    | some vmh =>
      if ¬(truthyStr p.snapshot_name = true ∨ truthyInt p.snapshot_id = true)
          ∧ p.state ≠ SnapState.remove_all then
        .failJson ("snapshot_name param required when state is "
          ++ stateText p.state)
      else
        .ok { result := initialResult, snapObject := snapObject,
              vm := vmh, vmId := vmIdText p }

/-! ## The snapshot module: operation dispatcher -/

/-- Vendor (pyVmomi) exceptions distinguished by `snapshot_vm`. -/
inductive VendorErr where
  | restrictedVersion (msg : String)
  | otherError (msg : String)
  deriving DecidableEq, Repr

/-- The text `to_text`/`to_native` extracts from a vendor exception. -/
def VendorErr.text : VendorErr → String
  | .restrictedVersion m => m
  | .otherError m => m

/-- Trace of the SDK calls an invocation makes, with the arguments the
module passes. -/
inductive VendorCall where
  | createSnapshot (memoryDump : Bool) (quiesce : Bool)
  | renameSnapshot (nameArg : Option String) (descArg : Option String)
  | removeSnapshot (removeChildren : Bool)
  | revertToSnapshot
  | removeAllSnapshots
  | waitForCompletion
  deriving DecidableEq, Repr

/-- Oracle for the vendor SDK and the external collaborators: the
outcome of each call the dispatcher may make. A `.error` models the
call raising; `.ok none` models a falsy (no-task) return value; the
task monitor either raises `TaskError` with a message or succeeds. -/
structure Env where
  createSnapshotResult : Except VendorErr (Option Nat)
  renameSnapshotResult : Except VendorErr (Option Nat)
  removeSnapshotResult : Except VendorErr (Option Nat)
  revertToSnapshotResult : Except VendorErr (Option Nat)
  removeAllSnapshotsResult : Except VendorErr (Option Nat)
  waitForCompletionResult : Except String Nat
  listSnapshotsResult : Nat
  deriving Repr

/-- Outcome of one state's branch before the task is awaited. -/
inductive DispatchResult where
  | exitJson (changed : Bool) (msg : String)
  | failJson (msg : String)
  | ok (r : ResultDict) (task : Option Nat)
  deriving DecidableEq, Repr

/-- The `CreateSnapshot` call with the module's arguments: the
memory-dump and quiesce flags are downgraded to the VM capabilities. -/
def createSnapshotCall (p : Params) (vm : VmHandle) : VendorCall :=
  VendorCall.createSnapshot
    (p.memory_dump && vm.capability.memorySnapshotsSupported)
    (p.quiesce && vm.capability.quiescedSnapshotsSupported)

/-- The `RenameSnapshot` call with the argument combination
`rename_snapshot` selects: both keywords when both parameters are
truthy, only the name when only it is truthy, and otherwise only the
description (which may be Python `None`). -/
def renameSnapshotCall (p : Params) : VendorCall :=
  if truthyStr p.new_snapshot_name ∧ truthyStr p.new_description then
    VendorCall.renameSnapshot p.new_snapshot_name p.new_description
  else if truthyStr p.new_snapshot_name then
    VendorCall.renameSnapshot p.new_snapshot_name none
  else
    VendorCall.renameSnapshot none p.new_description

/-- Embedding of `VmSnapshotModule.snapshot_vm`: if a snapshot resolved,
exit unchanged with an already-exists message; otherwise call
`CreateSnapshot` with the downgraded flags, translating a
RestrictedVersion fault and any other exception into `fail_json`
messages. -/
def snapshotVm (p : Params) (snapObject : Option Nat) (vm : VmHandle)
    (r0 : ResultDict) (env : Env) : DispatchResult × List VendorCall :=
  if snapObject.isSome then
    (.exitJson false ("Snapshot named [" ++ pyStrOpt p.snapshot_name
      ++ "] already exists"), [])
  else
    match env.createSnapshotResult with
    | .error (.restrictedVersion m) =>
        (.failJson ("Failed to take snapshot due to VMware Licence"
            ++ " restriction : " ++ m),
         [createSnapshotCall p vm])
    | .error (.otherError m) =>
        (.failJson ("Failed to create snapshot of virtual machine "
            ++ pyStrOpt p.name ++ " due to " ++ m),
         [createSnapshotCall p vm])
    | .ok task => (.ok r0 task, [createSnapshotCall p vm])

/-- Embedding of `VmSnapshotModule.rename_snapshot`: picks the
`RenameSnapshot` argument combination from the supplied parameters,
then sets `changed` and `renamed` on the result BEFORE any task is
awaited and returns the task; an exception from the vendor call
propagates to the caller's try/except. -/
def renameSnapshot (p : Params) (r0 : ResultDict) (env : Env) :
    DispatchResult × List VendorCall :=
  match env.renameSnapshotResult with
  | .error e => (.failJson e.text, [renameSnapshotCall p])
  | .ok task =>
      (.ok { r0 with changed := true, renamed := true } task,
       [renameSnapshotCall p])

/-- The body of the `snapshot_state_function[state]()` call inside the
dispatcher's try/except: one vendor operation per state, with
exceptions from the direct SDK lambdas surfacing as `fail_json` of the
exception text. -/
def dispatchStep (p : Params) (snapObject : Option Nat) (vm : VmHandle)
    (r0 : ResultDict) (env : Env) : DispatchResult × List VendorCall :=
  match p.state with
  | .present => snapshotVm p snapObject vm r0 env
  | .rename => renameSnapshot p r0 env
  | .absent =>
    match env.removeSnapshotResult with
    | .error e => (.failJson e.text, [.removeSnapshot p.remove_children])
    | .ok task => (.ok r0 task, [.removeSnapshot p.remove_children])
  | .revert =>
    match env.revertToSnapshotResult with
    | .error e => (.failJson e.text, [.revertToSnapshot])
    | .ok task => (.ok r0 task, [.revertToSnapshot])
  | .remove_all =>
    match env.removeAllSnapshotsResult with
    | .error e => (.failJson e.text, [.removeAllSnapshots])
    | .ok task => (.ok r0 task, [.removeAllSnapshots])

/-- How `apply_snapshot_op` can end. -/
inductive ApplyOutcome where
  | pyError (e : PyErr)
  | failJson (msg : String)
  | exitJson (changed : Bool) (msg : String)
  | done (r : ResultDict)
  deriving DecidableEq, Repr

/-- `params["snapshot_name"] or params["snapshot_id"]` rendered with
`%s` in the not-found message. -/
def selectorText (p : Params) : String :=
  if truthyStr p.snapshot_name then pyStrOpt p.snapshot_name
  else
    match p.snapshot_id with
    | some i => toString i
    | none => "None"

/-- The tail of `apply_snapshot_op`: a falsy task returns immediately;
otherwise the task monitor is awaited, a `TaskError` becomes
`fail_json`, and on success `changed` is set and the snapshot tree
projection is refreshed via `list_snapshots`. -/
def awaitAndFinish (env : Env) (r : ResultDict) (task : Option Nat) :
    ApplyOutcome × List VendorCall :=
  match task with
  | none => (.done r, [])
  | some _ =>
    match env.waitForCompletionResult with
    | .error m => (.failJson m, [.waitForCompletion])
    | .ok _ =>
        (.done { r with changed := true,
                        snapshot_results := some env.listSnapshotsResult },
         [.waitForCompletion])

/-- Embedding of `VmSnapshotModule.apply_snapshot_op`: the single
not-found guard for `absent`/`revert`/`rename`; then the construction
of the dispatch dict, which eagerly evaluates
`self.snap_object.RevertToSnapshot_Task` and therefore raises
AttributeError whenever `snap_object` is `None`; then the selected
state's branch and the task await. -/
def applySnapshotOp (p : Params) (snapObject : Option Nat) (vm : VmHandle)
    (vmId : String) (r0 : ResultDict) (env : Env) :
    ApplyOutcome × List VendorCall :=
  if (p.state = SnapState.absent ∨ p.state = SnapState.revert
        ∨ p.state = SnapState.rename) ∧ snapObject = none then
    (.failJson ("Could not find any snapshots with specified name: "
        ++ selectorText p ++ " on VM: " ++ vmId), [])
  else
    match snapObject with
    | none =>
        (.pyError (.attributeError
          "NoneType object has no attribute RevertToSnapshot_Task"), [])
    | some _ =>
      match dispatchStep p snapObject vm r0 env with
      | (.exitJson c m, calls) => (.exitJson c m, calls)
      | (.failJson m, calls) => (.failJson m, calls)
      | (.ok r task, calls) =>
          let fin := awaitAndFinish env r task
          (fin.1, calls ++ fin.2)

/-! ## The REST client (`module_utils/clients/_rest.py`) -/

/-- The connection parameters consumed by
`VmwareRestClient.connect_to_api` (`none` models an absent key). -/
structure ConnectionParams where
  hostname : Option String
  username : Option String
  password : Option String
  port : Option Int
  validate_certs : Option Bool
  http_proxy_host : Option String
  http_proxy_port : Option Int
  http_proxy_protocol : Option String
  deriving Repr

/-- The exception classes that can escape the client builder:
`ApiAccessError` and `MissingLibError` from `clients._errors`, plus
Python's TypeError. -/
inductive RestError where
  | apiAccessError (msg : String)
  | missingLibError (lib : String)
  | typeError (msg : String)
  deriving DecidableEq, Repr

/-- Whether an error is of the `ApiAccessError` kind. -/
def RestError.isApiAccessError : RestError → Bool
  | .apiAccessError _ => true
  | _ => false

/-- The `requests.Session` attributes this code touches. -/
structure Session where
  verify : Option Bool
  proxies : List (String × String)
  deriving DecidableEq, Repr

/-- A freshly constructed `requests.Session()`. -/
def newSession : Session := { verify := none, proxies := [] }

/-- Message raised for a missing hostname. -/
def hostnameMissingMsg : String :=
  "Hostname parameter is missing. Please specify this parameter in task or export environment variable like export VMWARE_HOST=ESXI_HOSTNAME"

/-- Message raised for a missing username. -/
def usernameMissingMsg : String :=
  "Username parameter is missing. Please specify this parameter in task or export environment variable like export VMWARE_USER=ESXI_USERNAME"

/-- Message raised for a missing password. -/
def passwordMissingMsg : String :=
  "Password parameter is missing. Please specify this parameter in task or export environment variable like export VMWARE_PASSWORD=ESXI_PASSWORD"

/-- Embedding of
`VmwareRestClient.__validate_required_connection_params`: each missing
required parameter raises an error with a field-specific message — and
the raised class is `ApiAccessError`, the same kind used for
connection, TLS and login failures. -/
def validateRequiredConnectionParams
    (hostname username password : Option String) : Except RestError Unit :=
  if truthyStr hostname = false then
    .error (.apiAccessError hostnameMissingMsg)
  else if truthyStr username = false then
    .error (.apiAccessError usernameMissingMsg)
  else if truthyStr password = false then
    .error (.apiAccessError passwordMissingMsg)
  else
    .ok ()

/-- Embedding of `VmwareRestClient.__configure_session_ssl_context`
(the urllib3 warning suppression is a process-global side effect and is
not modelled). -/
def configureSessionSslContext (s : Session) (validate_certs : Option Bool) :
    Session :=
  { s with verify := validate_certs }

/-- Interleaves the fragments of a format string (split at its `%s`
specifiers) with the argument values. -/
def interleaveFmt : List String → List String → String
  | [], _ => ""
  | p :: ps, [] => p ++ interleaveFmt ps []
  | p :: ps, a :: rest => p ++ a ++ interleaveFmt ps rest

/-- Counts `%s` occurrences in a character list. -/
def countFmtSlotsChars : List Char → Nat
  | [] => 0
  | '%' :: 's' :: rest => 1 + countFmtSlotsChars rest
  | _ :: rest => countFmtSlotsChars rest

/-- Number of `%s` conversion specifiers in an old-style Python format
string (`%s` is the only specifier occurring in this code). -/
def countFmtSlots (fmt : String) : Nat := countFmtSlotsChars fmt.data

/-- Old-style Python `%` formatting applied to an argument list: fewer
arguments than conversion specifiers raise
`TypeError: not enough arguments for format string`; surplus arguments
also raise TypeError. -/
def pyPercentFormat (fmt : String) (args : List String) :
    Except RestError String :=
  if args.length < countFmtSlots fmt then
    .error (.typeError "not enough arguments for format string")
  else if countFmtSlots fmt < args.length then
    .error (.typeError "not all arguments converted during string formatting")
  else
    .ok (interleaveFmt (fmt.splitOn "%s") args)

/-- Embedding of `VmwareRestClient.__configure_session_proxies`. When
all three proxy parameters are truthy, the source evaluates
`"{%s}://{%s}:{%s}" % http_proxy_protocol` — because of the misplaced
parenthesis the other two variables are tuple elements, not format
arguments — so the three-specifier format string receives one argument.
On the (unreachable) success path the formatted value would become the
proxy entry for the protocol; when any parameter is absent the session
is returned unchanged. -/
def configureSessionProxies (s : Session) (http_proxy_host : Option String)
    (http_proxy_port : Option Int) (http_proxy_protocol : Option String) :
    Except RestError Session :=
  if truthyStr http_proxy_host ∧ truthyInt http_proxy_port
      ∧ truthyStr http_proxy_protocol then
    match pyPercentFormat "\x7b%s\x7d://\x7b%s\x7d:\x7b%s\x7d"
        [pyStrOpt http_proxy_protocol] with
    | .error e => .error e
    | .ok url =>
        .ok { s with
          proxies := s.proxies ++ [(pyStrOpt http_proxy_protocol, url)] }
  else
    .ok s

/-- Exceptions `create_vsphere_client` may raise. -/
inductive CreateClientErr where
  | sslError (msg : String)
  | otherError (msg : String)
  deriving DecidableEq, Repr

/-- Oracle for the vSphere SDK call: raising, returning `None`, or
returning a client handle. -/
structure RestEnv where
  createVsphereClientResult : Except CreateClientErr (Option Nat)
  deriving Repr

/-- Embedding of `VmwareRestClient.__create_client_connection`: wraps
`create_vsphere_client`, reporting SSL failures distinctly in the
message text, translating any exception to `ApiAccessError`, and
treating a `None` client as a login failure. -/
def createClientConnection (env : RestEnv) (hostname : Option String)
    (port : Int) : Except RestError Nat :=
  let msg := "Failed to connect to vCenter or ESXi API at "
    ++ pyStrOpt hostname ++ ":" ++ toString port
  match env.createVsphereClientResult with
  | .error (.sslError e) =>
      .error (.apiAccessError
        (msg ++ " due to SSL verification failure" ++ " : " ++ e))
  | .error (.otherError e) => .error (.apiAccessError (msg ++ " : " ++ e))
  | .ok none =>
      .error (.apiAccessError ("Failed to login to " ++ pyStrOpt hostname))
  | .ok (some c) => .ok c

/-- Embedding of `VmwareRestClient.connect_to_api`: extract parameters
(port defaulting to 443), validate the required ones, build a session,
configure certificate validation and proxies, then create the
authenticated client. -/
def connectToApi (env : RestEnv) (cp : ConnectionParams) :
    Except RestError (Nat × Session) :=
  match validateRequiredConnectionParams cp.hostname cp.username
      cp.password with
  | .error e => .error e
  | .ok _ =>
    let sslSession := configureSessionSslContext newSession cp.validate_certs
    match configureSessionProxies sslSession cp.http_proxy_host
        cp.http_proxy_port cp.http_proxy_protocol with
    | .error e => .error e
    | .ok configured =>
      match createClientConnection env cp.hostname (cp.port.getD 443) with
      | .error e => .error e
      | .ok c => .ok (c, configured)

/-! ## Concrete fixtures for counterexamples and witnesses -/

/-- A VM whose snapshot tree is `[exRoot]`. -/
def exVm : VmHandle :=
  { snapshot := some { rootSnapshotList := [exRoot] },
    capability := { memorySnapshotsSupported := true,
                    quiescedSnapshotsSupported := true } }

/-- A VM with no snapshots (`vm.snapshot is None`). -/
def exVmNoSnap : VmHandle :=
  { snapshot := none,
    capability := { memorySnapshotsSupported := true,
                    quiescedSnapshotsSupported := true } }

/-- Baseline parameter set: `state=present`, VM selected by name,
snapshot selected by name. -/
def baseParams : Params :=
  { state := SnapState.present, name := some "vm1", uuid := none,
    moid := none, snapshot_name := some "snap1", snapshot_id := none,
    description := "", quiesce := false, memory_dump := false,
    remove_children := false, new_snapshot_name := none,
    new_description := none }

/-- `state=present` with only an id selector (C4 counterexample). -/
def c4Params : Params :=
  { baseParams with snapshot_name := none, snapshot_id := some 5 }

/-- `state=remove_all` with no snapshot selector. -/
def c5Params : Params :=
  { baseParams with state := SnapState.remove_all, snapshot_name := none }

/-- `state=absent` selecting `snap1`. -/
def c3wParams : Params := { baseParams with state := SnapState.absent }

/-- `state=rename` with a new snapshot name. -/
def c8Params : Params :=
  { baseParams with
    state := SnapState.rename,
    new_snapshot_name := some "renamed" }

/-- An environment in which every vendor call succeeds with a task. -/
def exEnv : Env :=
  { createSnapshotResult := .ok (some 1),
    renameSnapshotResult := .ok (some 2),
    removeSnapshotResult := .ok (some 3),
    revertToSnapshotResult := .ok (some 4),
    removeAllSnapshotsResult := .ok (some 5),
    waitForCompletionResult := .ok 0,
    listSnapshotsResult := 99 }

/-- An environment in which `RenameSnapshot` succeeds but returns no
task, and the task monitor would fail if it were consulted. -/
def c8Env : Env :=
  { exEnv with
    renameSnapshotResult := .ok none,
    waitForCompletionResult := .error "task failed" }

/-- Connection parameters with an empty hostname. -/
def c9Cp : ConnectionParams :=
  { hostname := some "", username := some "admin",
    password := some "secret", port := none, validate_certs := some true,
    http_proxy_host := none, http_proxy_port := none,
    http_proxy_protocol := none }

/-- Complete, valid connection parameters without proxies. -/
def c9CpFull : ConnectionParams :=
  { c9Cp with hostname := some "vc.example.com" }

/-- Connection parameters with all three proxy settings supplied. -/
def c10Cp : ConnectionParams :=
  { c9CpFull with
    http_proxy_host := some "proxy.example.com",
    http_proxy_port := some 8080,
    http_proxy_protocol := some "http" }

/-- Valid connection parameters except for a missing username. -/
def c9CpNoUser : ConnectionParams := { c9CpFull with username := none }

/-- A REST oracle whose client creation succeeds. -/
def okRestEnv : RestEnv := { createVsphereClientResult := .ok (some 7) }

/-- A REST oracle whose client creation raises an SSL error. -/
def sslRestEnv : RestEnv :=
  { createVsphereClientResult :=
      .error (.sslError "certificate verify failed") }

theorem occursVia_cons {anc : List Snapshot} {s t : Snapshot}
    {T : List Snapshot} (h : OccursVia anc s T) : OccursVia anc s (t :: T) := by
  cases h with
  | base hm => exact .base (List.mem_cons_of_mem _ hm)
  | step hp hc => exact .step (List.mem_cons_of_mem _ hp) hc

/-- The generic traversal returns exactly the nodes satisfying `p` that
have no satisfying proper ancestor. -/
theorem mem_searchSnapshotTree_iff (p : Snapshot → Bool) :
    ∀ (T : List Snapshot) (s : Snapshot),
      s ∈ searchSnapshotTree p T ↔
        p s = true ∧
          ∃ anc, OccursVia anc s T ∧ ∀ a ∈ anc, p a = false := by
  intro T
  induction T using searchSnapshotTree.induct p with
  | case1 =>
      intro s
      constructor
      · intro h; simp [searchSnapshotTree] at h
      · rintro ⟨-, anc, hocc, -⟩
        cases hocc with
        | base hm => simp at hm
        | step hp _ => simp at hp
  | case2 i n r c rest ihc ihrest =>
      intro s
      constructor
      · intro h
        simp only [searchSnapshotTree, List.mem_append] at h
        rcases h with h | h
        · by_cases hp : p (Snapshot.mk i n r c) = true
          · rw [if_pos hp] at h
            simp only [List.mem_singleton] at h
            subst h
            exact ⟨hp, [], .base (List.mem_cons_self _ _), by simp⟩
          · rw [if_neg hp] at h
            rcases (ihc s).mp h with ⟨hps, anc, hocc, hanc⟩
            refine ⟨hps, Snapshot.mk i n r c :: anc,
              .step (List.mem_cons_self _ _) ?_, ?_⟩
            · exact hocc
            · intro a ha
              rcases List.mem_cons.mp ha with rfl | ha
              · exact Bool.eq_false_iff.mpr hp
              · exact hanc a ha
        · rcases (ihrest s).mp h with ⟨hps, anc, hocc, hanc⟩
          exact ⟨hps, anc, occursVia_cons hocc, hanc⟩
      · rintro ⟨hps, anc, hocc, hanc⟩
        simp only [searchSnapshotTree, List.mem_append]
        cases hocc with
        | base hm =>
            rcases List.mem_cons.mp hm with rfl | hm
            · left; rw [if_pos hps]; simp
            · right; exact (ihrest s).mpr ⟨hps, [], .base hm, by simp⟩
        | step hp hc =>
            rename_i q anc'
            have hq : p q = false := hanc q (List.mem_cons_self _ _)
            have hanc' : ∀ a ∈ anc', p a = false :=
              fun a ha => hanc a (List.mem_cons_of_mem _ ha)
            rcases List.mem_cons.mp hp with rfl | hp
            · left
              rw [if_neg (by simp [hq])]
              exact (ihc s).mpr ⟨hps, anc', hc, hanc'⟩
            · right
              exact (ihrest s).mpr ⟨hps, q :: anc', .step hp hc, hanc⟩

/-- The generic traversal is the `filter` of the nodes it visits: it
keeps every tested node that satisfies the predicate, in visit order. -/
theorem searchSnapshotTree_eq_filter_visited (p : Snapshot → Bool) :
    ∀ T : List Snapshot,
      searchSnapshotTree p T = (visitedSnapshots p T).filter p := by
  intro T
  induction T using searchSnapshotTree.induct p with
  | case1 => simp [searchSnapshotTree, visitedSnapshots]
  | case2 i n r c rest ihc ihrest =>
      by_cases hp : p (Snapshot.mk i n r c) = true
      · simp [searchSnapshotTree, visitedSnapshots, hp, List.filter_cons,
          ihrest]
      · simp [searchSnapshotTree, visitedSnapshots, hp, List.filter_cons,
          List.filter_append, ihc, ihrest]

/-- The name search is the generic traversal at the `name` field. -/
theorem getSnapshotsByNameRecursively_eq_search :
    ∀ (T : List Snapshot) (snapname : String),
      getSnapshotsByNameRecursively T snapname
        = searchSnapshotTree (fun s => s.name == snapname) T := by
  intro T snapname
  induction T, snapname using getSnapshotsByNameRecursively.induct with
  | case1 _ => simp [getSnapshotsByNameRecursively, searchSnapshotTree]
  | case2 i n r c rest snapname ihc ihrest =>
      by_cases h : n = snapname
      · simp [getSnapshotsByNameRecursively, searchSnapshotTree,
          Snapshot.name, h, ihrest]
      · simp [getSnapshotsByNameRecursively, searchSnapshotTree,
          Snapshot.name, h, ihc, ihrest]

/-- The id search is the generic traversal at the `id` field. -/
theorem getSnapshotsByIdRecursively_eq_search :
    ∀ (T : List Snapshot) (snapid : Int),
      getSnapshotsByIdRecursively T snapid
        = searchSnapshotTree (fun s => s.id == snapid) T := by
  intro T snapid
  induction T, snapid using getSnapshotsByIdRecursively.induct with
  | case1 _ => simp [getSnapshotsByIdRecursively, searchSnapshotTree]
  | case2 i n r c rest snapid ihc ihrest =>
      by_cases h : i = snapid
      · simp [getSnapshotsByIdRecursively, searchSnapshotTree,
          Snapshot.id, h, ihrest]
      · simp [getSnapshotsByIdRecursively, searchSnapshotTree,
          Snapshot.id, h, ihc, ihrest]

/-- C1: the claim states that `get_snapshots_by_name_recursively` returns
every node of the tree, at any depth, whose name equals the target. This
is false: in a tree whose root is named `a` and whose child is also
named `a`, the child is a node of the tree with the target name, yet the
search returns only the root — the `else` branch skips the children of a
matching node. -/
theorem C1_counterexample_name_search_skips_children_of_match :
    getSnapshotsByNameRecursively [exRoot] "a" = [exRoot]
      ∧ exChild ∈ allNodes [exRoot]
      ∧ exChild.name = "a"
      ∧ exChild ∉ getSnapshotsByNameRecursively [exRoot] "a" := by
  refine ⟨?_, ?_, ?_, ?_⟩
  · simp [getSnapshotsByNameRecursively, exRoot, exChild, Snapshot.name]
  · simp [allNodes, exRoot, exChild]
  · simp [exChild, Snapshot.name]
  · simp [getSnapshotsByNameRecursively, exRoot, exChild, Snapshot.name]

/-- C1 (amended): `get_snapshots_by_name_recursively` returns exactly
the nodes whose name equals the target and none of whose proper
ancestors has the target name — descendants of a matching node are not
searched, while siblings of a match are; the empty tree yields the empty
sequence. -/
theorem C1_name_search_returns_matches_without_matching_ancestor :
    ∀ (T : List Snapshot) (N : String) (s : Snapshot),
      (s ∈ getSnapshotsByNameRecursively T N ↔
        s.name = N ∧ ∃ anc, OccursVia anc s T ∧ ∀ a ∈ anc, a.name ≠ N)
      ∧ getSnapshotsByNameRecursively [] N = [] := by
  intro T N s
  constructor
  · rw [getSnapshotsByNameRecursively_eq_search,
      mem_searchSnapshotTree_iff]
    constructor
    · rintro ⟨hs, anc, hocc, hanc⟩
      refine ⟨by simpa using hs, anc, hocc, fun a ha => ?_⟩
      simpa using hanc a ha
    · rintro ⟨hs, anc, hocc, hanc⟩
      refine ⟨by simpa using hs, anc, hocc, fun a ha => ?_⟩
      simpa using hanc a ha
  · simp [getSnapshotsByNameRecursively]

/-- C6: the id search is the same traversal as the name search — both
are the one generic pruned depth-first traversal `searchSnapshotTree`,
instantiated at the `id` field instead of the `name` field — and it does
not assume id uniqueness: it returns every tested node whose id matches,
i.e. the filter of the visited-node sequence. -/
theorem C6_id_search_same_structure_as_name_search :
    ∀ (T : List Snapshot) (N : String) (I : Int),
      getSnapshotsByNameRecursively T N
          = searchSnapshotTree (fun s => s.name == N) T
      ∧ getSnapshotsByIdRecursively T I
          = searchSnapshotTree (fun s => s.id == I) T
      ∧ getSnapshotsByIdRecursively T I
          = (visitedSnapshots (fun s => s.id == I) T).filter
              (fun s => s.id == I) := by
  intro T N I
  refine ⟨getSnapshotsByNameRecursively_eq_search T N,
    getSnapshotsByIdRecursively_eq_search T I, ?_⟩
  rw [getSnapshotsByIdRecursively_eq_search,
    searchSnapshotTree_eq_filter_visited]

/-- C2: the resolver yields an operable target exactly when the search
returned exactly one matching node — that match's `.snapshot` handle —
and the zero-match and multi-match cases both resolve to `None`,
indistinguishably. -/
theorem C2_disambiguation_requires_exactly_one_match :
    ∀ found : List Snapshot,
      ((disambiguateSnapshot found).isSome ↔ found.length = 1)
      ∧ (∀ m, found = [m] →
          disambiguateSnapshot found = some m.snapshotRef)
      ∧ (∀ other : List Snapshot, found.length ≠ 1 → other.length ≠ 1 →
          disambiguateSnapshot found = disambiguateSnapshot other) := by
  have hnone : ∀ l : List Snapshot, l.length ≠ 1 →
      disambiguateSnapshot l = none := by
    intro l hl
    cases l with
    | nil => rfl
    | cons a t =>
      cases t with
      | nil => simp at hl
      | cons b t2 => rfl
  intro found
  refine ⟨?_, ?_, ?_⟩
  · cases found with
    | nil => simp [disambiguateSnapshot]
    | cons a t =>
      cases t with
      | nil => simp [disambiguateSnapshot]
      | cons b t2 => simp [disambiguateSnapshot]
  · rintro m rfl
    rfl
  · intro other h1 h2
    rw [hnone found h1, hnone other h2]

/-- C2 witness: a two-element search result and the empty result both
resolve to `None`, while a singleton resolves to its handle. -/
theorem C2_disambiguation_witness :
    disambiguateSnapshot [] = disambiguateSnapshot [exRoot, exChild]
      ∧ disambiguateSnapshot [exChild] = some exChild.snapshotRef := by
  obtain ⟨-, -, h3⟩ := C2_disambiguation_requires_exactly_one_match []
  obtain ⟨-, h2, -⟩ := C2_disambiguation_requires_exactly_one_match [exChild]
  exact ⟨h3 [exRoot, exChild] (by simp) (by simp), h2 exChild rfl⟩

/-- C4 counterexample: with an id selector and `state=present` on a VM
that has a snapshot tree, the invocation does not proceed without error
through resolution — `get_snapshots_recursively` returns Python `None`,
and the constructor's `len(...)` raises TypeError. -/
theorem C4_counterexample_id_selector_present_raises :
    getSnapshotsRecursively c4Params [exRoot] = none
      ∧ resolveSnapObject c4Params (some exVm)
          = .error (.typeError "object of type NoneType has no len()")
      ∧ vmSnapshotInit c4Params (some exVm) (some exVm)
          = .pyError (.typeError "object of type NoneType has no len()") := by
  exact ⟨rfl, rfl, rfl⟩

/-- C4 (amended): a name selector always wins; an id selector is
searched exactly for `absent`/`revert`; in every other case no search
happens and the helper returns Python `None` — which, whenever the VM
has a snapshot tree, the constructor turns into a TypeError rather than
proceeding without error. -/
theorem C4_selector_precedence :
    ∀ (p : Params) (roots : List Snapshot),
      (truthyStr p.snapshot_name = true →
        getSnapshotsRecursively p roots
          = some (getSnapshotsByNameRecursively roots
              (p.snapshot_name.getD "")))
      ∧ (truthyStr p.snapshot_name = false →
          truthyInt p.snapshot_id = true →
          (p.state = SnapState.absent ∨ p.state = SnapState.revert) →
          getSnapshotsRecursively p roots
            = some (getSnapshotsByIdRecursively roots
                (p.snapshot_id.getD 0)))
      ∧ (truthyStr p.snapshot_name = false →
          ¬(truthyInt p.snapshot_id = true
              ∧ (p.state = SnapState.absent ∨ p.state = SnapState.revert)) →
          getSnapshotsRecursively p roots = none)
      ∧ (∀ (vmh : VmHandle) (info : SnapshotInfo),
          vmh.snapshot = some info →
          getSnapshotsRecursively p info.rootSnapshotList = none →
          resolveSnapObject p (some vmh)
            = .error (.typeError "object of type NoneType has no len()")) := by
  intro p roots
  refine ⟨?_, ?_, ?_, ?_⟩
  · intro h
    simp [getSnapshotsRecursively, h]
  · intro h1 h2 h3
    simp [getSnapshotsRecursively, h1, h2, h3]
  · intro h1 h2
    simp only [getSnapshotsRecursively, h1, Bool.false_eq_true, if_false]
    rw [if_neg]
    intro hcontra
    exact h2 ⟨hcontra.1, hcontra.2⟩
  · intro vmh info hs hn
    simp [resolveSnapObject, hs, hn]

/-- C4 witness: with a name selector the search runs by name; the
TypeError conjunct fires on the concrete id-selector fixture. -/
theorem C4_selector_precedence_witness :
    getSnapshotsRecursively baseParams [exRoot]
        = some (getSnapshotsByNameRecursively [exRoot] "snap1")
      ∧ resolveSnapObject c4Params (some exVm)
          = .error (.typeError "object of type NoneType has no len()") := by
  refine ⟨(C4_selector_precedence baseParams [exRoot]).1 rfl, ?_⟩
  exact (C4_selector_precedence c4Params [exRoot]).2.2.2 exVm
    { rootSnapshotList := [exRoot] } rfl rfl

/-- C5: the constructor resolves `snap_object` from whatever `self.vm`
holds before the VM lookup — an unset attribute raises AttributeError —
and only afterwards assigns `self.vm` from the lookup result, so the
resolved snapshot never depends on the lookup. -/
theorem C5_resolution_before_vm_assignment :
    ∀ (p : Params) (vm0 : Option VmHandle) (lookup : Option VmHandle),
      (∀ st, vmSnapshotInit p vm0 lookup = .ok st →
        lookup = some st.vm
          ∧ resolveSnapObject p vm0 = .ok st.snapObject)
      ∧ (∀ e, resolveSnapObject p vm0 = .error e →
          vmSnapshotInit p vm0 lookup = .pyError e)
      ∧ (vm0 = none →
          vmSnapshotInit p vm0 lookup
            = .pyError (.attributeError
                "VmSnapshotModule object has no attribute vm")) := by
  intro p vm0 lookup
  refine ⟨?_, ?_, ?_⟩
  · intro st h
    cases hres : resolveSnapObject p vm0 with
    | error e => simp [vmSnapshotInit, hres] at h
    | ok so =>
      cases lookup with
      | none => simp [vmSnapshotInit, hres] at h
      | some vmh =>
        rw [vmSnapshotInit, hres] at h
        simp only at h
        split at h
        · exact absurd h (by simp)
        · cases h
          exact ⟨rfl, rfl⟩
  · intro e he
    simp [vmSnapshotInit, he]
  · rintro rfl
    rfl

/-- C5 witness: with the attribute unset the constructor raises
AttributeError; on a concrete successful run the stored `snap_object`
equals the resolution over the pre-lookup VM and `self.vm` equals the
lookup result. -/
theorem C5_resolution_before_vm_assignment_witness :
    vmSnapshotInit baseParams none (some exVm)
        = .pyError (.attributeError
            "VmSnapshotModule object has no attribute vm")
      ∧ (some exVm
            = some (CtorState.mk initialResult none exVmNoSnap
                "vm1").vm → False)
      ∧ ∀ st, vmSnapshotInit c5Params (some exVmNoSnap) (some exVm)
          = CtorOutcome.ok st →
          some exVm = some st.vm
            ∧ resolveSnapObject c5Params (some exVmNoSnap)
                = .ok st.snapObject := by
  refine ⟨?_, ?_, ?_⟩
  · exact (C5_resolution_before_vm_assignment baseParams none
      (some exVm)).2.2 rfl
  · intro h
    simp [exVm, exVmNoSnap] at h
  · intro st h
    exact (C5_resolution_before_vm_assignment c5Params (some exVmNoSnap)
      (some exVm)).1 st h

/-- C3 counterexample: for `state=present` with no resolved snapshot the
invocation does NOT fail with the not-found error — it raises an
AttributeError while the dispatch dict is being built (the claim said
the single not-found check covers `present` too). -/
theorem C3_counterexample_present_not_guarded :
    applySnapshotOp baseParams none exVm "vm1" initialResult exEnv
        = (.pyError (.attributeError
            "NoneType object has no attribute RevertToSnapshot_Task"), [])
      ∧ (applySnapshotOp baseParams none exVm "vm1" initialResult
            exEnv).1
          ≠ .failJson ("Could not find any snapshots with specified name: "
              ++ "snap1" ++ " on VM: " ++ "vm1") := by
  exact ⟨rfl, by decide⟩

/-- C3 (amended): the single pre-dispatch not-found check covers exactly
`rename`, `absent` and `revert`: for those states a `None` resolved
snapshot fails with the not-found message before any vendor call, while
`present` is not covered by it. -/
theorem C3_not_found_check_covers_three_states :
    ∀ (p : Params) (vm : VmHandle) (vmId : String) (r0 : ResultDict)
      (env : Env),
      (p.state = SnapState.rename ∨ p.state = SnapState.absent
          ∨ p.state = SnapState.revert) →
      applySnapshotOp p none vm vmId r0 env
        = (.failJson ("Could not find any snapshots with specified name: "
            ++ selectorText p ++ " on VM: " ++ vmId), []) := by
  intro p vm vmId r0 env h
  have hg : (p.state = SnapState.absent ∨ p.state = SnapState.revert
      ∨ p.state = SnapState.rename) ∧ (none : Option Nat) = none := by
    constructor
    · rcases h with h | h | h
      · exact Or.inr (Or.inr h)
      · exact Or.inl h
      · exact Or.inr (Or.inl h)
    · rfl
  rw [applySnapshotOp, if_pos hg]

/-- C3 witness: concrete `absent` invocation with no resolved snapshot
fails with the not-found message and makes no vendor call. -/
theorem C3_not_found_check_witness :
    applySnapshotOp c3wParams none exVm "vm1" initialResult exEnv
      = (.failJson ("Could not find any snapshots with specified name: "
          ++ "snap1" ++ " on VM: " ++ "vm1"), []) := by
  exact C3_not_found_check_covers_three_states c3wParams exVm "vm1"
    initialResult exEnv (Or.inr (Or.inl rfl))

/-- C7: when `state=present` and a snapshot resolved, the invocation
exits with `changed=false` and an already-exists message, and the call
trace is empty — in particular no `CreateSnapshot` call is made. -/
theorem C7_present_with_existing_snapshot_is_noop :
    ∀ (p : Params) (ref : Nat) (vm : VmHandle) (vmId : String)
      (r0 : ResultDict) (env : Env),
      p.state = SnapState.present →
      applySnapshotOp p (some ref) vm vmId r0 env
        = (.exitJson false ("Snapshot named [" ++ pyStrOpt p.snapshot_name
            ++ "] already exists"), []) := by
  intro p ref vm vmId r0 env h
  rw [applySnapshotOp, if_neg]
  · simp [dispatchStep, h, snapshotVm]
  · rintro ⟨hstate, -⟩
    rcases hstate with hs | hs | hs <;> rw [h] at hs <;> cases hs

theorem renameSnapshotCall_ne_wait (p : Params) :
    renameSnapshotCall p ≠ VendorCall.waitForCompletion := by
  unfold renameSnapshotCall
  repeat' split
  all_goals simp

theorem waitForCompletion_notMem_dispatchStep (p : Params)
    (so : Option Nat) (vm : VmHandle) (r0 : ResultDict) (env : Env) :
    VendorCall.waitForCompletion ∉ (dispatchStep p so vm r0 env).2 := by
  have hr := renameSnapshotCall_ne_wait p
  unfold dispatchStep snapshotVm renameSnapshot
  cases p.state <;> dsimp only <;> repeat' split
  all_goals simp [createSnapshotCall]
  all_goals exact fun h => hr h.symm

theorem dispatchStep_ok_result (p : Params) (so : Option Nat)
    (vm : VmHandle) (r0 : ResultDict) (env : Env) :
    ∀ r task calls, dispatchStep p so vm r0 env = (.ok r task, calls) →
      r = r0 ∨ (p.state = SnapState.rename
        ∧ r = { r0 with changed := true, renamed := true }) := by
  intro r task calls h
  unfold dispatchStep snapshotVm renameSnapshot at h
  cases hst : p.state <;> rw [hst] at h <;> dsimp only at h <;>
    repeat' split at h
  all_goals simp at h
  all_goals
    first
      | exact Or.inl h.1.1.symm
      | exact Or.inr ⟨rfl, h.1.1.symm⟩

/-- C8 counterexample: a `rename` invocation whose vendor call raises no
exception but yields no task hands `changed=true` (set eagerly by
`rename_snapshot`) back to the caller without the task monitor ever
running and without any refreshed snapshot projection — so "task
terminal success with refresh, or failure with no changed=true" does
not hold. -/
theorem C8_counterexample_rename_changed_without_task :
    applySnapshotOp c8Params (some 1) exVm "vm1" initialResult c8Env
        = (.done (ResultDict.mk true true none),
           [.renameSnapshot (some "renamed") none])
      ∧ VendorCall.waitForCompletion
          ∉ [VendorCall.renameSnapshot (some "renamed") none] := by
  exact ⟨rfl, by decide⟩

/-- C8 (amended): whenever the task monitor is consulted there is no
partial success — a task failure becomes `fail_json` and no result is
returned, and a task success yields `changed=true` with the refreshed
projection attached; however when the dispatched vendor call returns no
task, the invocation can return a result whose `changed=true` was set
eagerly, which happens exactly on the `rename` path and carries no
refreshed projection. -/
theorem C8_no_partial_success_around_task_await :
    ∀ (p : Params) (so : Option Nat) (vm : VmHandle) (vmId : String)
      (r0 : ResultDict) (env : Env) (out : ApplyOutcome)
      (calls : List VendorCall),
      r0.changed = false → r0.snapshot_results = none →
      applySnapshotOp p so vm vmId r0 env = (out, calls) →
      ((VendorCall.waitForCompletion ∈ calls →
          (∀ m, env.waitForCompletionResult = .error m →
            out = .failJson m)
          ∧ (∀ v, env.waitForCompletionResult = .ok v →
              ∃ r, out = .done r ∧ r.changed = true
                ∧ r.snapshot_results = some env.listSnapshotsResult))
        ∧ (VendorCall.waitForCompletion ∉ calls →
            ∀ r, out = .done r →
              r.snapshot_results = none
              ∧ (r.changed = true →
                  p.state = SnapState.rename ∧ r.renamed = true))) := by
  intro p so vm vmId r0 env out calls hch hsr happ
  rw [applySnapshotOp.eq_def] at happ
  split at happ
  · cases happ
    constructor
    · intro hmem; simp at hmem
    · intro _ r hr; cases hr
  · revert happ
    split
    · intro happ
      cases happ
      constructor
      · intro hmem; simp at hmem
      · intro _ r hr; cases hr
    · rename_i ref hcond
      cases hd : dispatchStep p (some ref) vm r0 env with
      | mk dr calls1 =>
        have hw1 : VendorCall.waitForCompletion ∉ calls1 := by
          have := waitForCompletion_notMem_dispatchStep p (some ref) vm
            r0 env
          rw [hd] at this
          exact this
        cases dr with
        | exitJson c m =>
            intro happ
            dsimp only at happ
            cases happ
            constructor
            · intro hmem; exact absurd hmem hw1
            · intro _ r hr; cases hr
        | failJson m =>
            intro happ
            dsimp only at happ
            cases happ
            constructor
            · intro hmem; exact absurd hmem hw1
            · intro _ r hr; cases hr
        | ok r1 task =>
            intro happ
            dsimp only at happ
            have hr1 : r1 = r0 ∨ (p.state = SnapState.rename
                ∧ r1 = { r0 with changed := true, renamed := true }) :=
              dispatchStep_ok_result p (some ref) vm r0 env r1 task calls1 hd
            cases task with
            | none =>
                simp only [awaitAndFinish, List.append_nil] at happ
                cases happ
                constructor
                · intro hmem; exact absurd hmem hw1
                · intro _ r hr
                  cases hr
                  rcases hr1 with rfl | ⟨hstate, rfl⟩
                  · exact ⟨hsr, fun hc => absurd (hch ▸ hc) (by simp [hch])⟩
                  · exact ⟨hsr, fun _ => ⟨hstate, rfl⟩⟩
            | some t =>
                revert happ
                cases hwait : env.waitForCompletionResult with
                | error m =>
                    simp only [awaitAndFinish, hwait]
                    intro happ
                    cases happ
                    constructor
                    · intro _
                      constructor
                      · intro m2 hm2
                        cases hm2
                        rfl
                      · intro v hv
                        cases hv
                    · intro hmem
                      exact absurd (by simp) hmem
                | ok v =>
                    simp only [awaitAndFinish, hwait]
                    intro happ
                    cases happ
                    constructor
                    · intro _
                      constructor
                      · intro m2 hm2
                        cases hm2
                      · intro v2 hv2
                        exact ⟨_, rfl, rfl, rfl⟩
                    · intro hmem
                      exact absurd (by simp) hmem

/-- C8 witness: a concrete `absent` invocation whose task succeeds
returns `changed=true` with the refreshed projection attached. -/
theorem C8_no_partial_success_witness :
    ∃ r, (applySnapshotOp c3wParams (some 1) exVm "vm1" initialResult
          exEnv).1
        = .done r
      ∧ r.changed = true ∧ r.snapshot_results = some 99 := by
  obtain ⟨h1, -⟩ := C8_no_partial_success_around_task_await c3wParams
    (some 1) exVm "vm1" initialResult exEnv
    (applySnapshotOp c3wParams (some 1) exVm "vm1" initialResult exEnv).1
    (applySnapshotOp c3wParams (some 1) exVm "vm1" initialResult exEnv).2
    rfl rfl rfl
  obtain ⟨r, hr, hc, hs⟩ := (h1 (by decide)).2 0 rfl
  exact ⟨r, hr, hc, hs⟩

/-- C7 witness: the concrete `present` fixture with a resolved snapshot
exits unchanged with the already-exists message. -/
theorem C7_present_noop_witness :
    applySnapshotOp baseParams (some 11) exVm "vm1" initialResult exEnv
      = (.exitJson false ("Snapshot named [" ++ "snap1"
          ++ "] already exists"), []) := by
  exact C7_present_with_existing_snapshot_is_noop baseParams 11 exVm "vm1"
    initialResult exEnv rfl

/-- C9 counterexample: an empty hostname is rejected before any
connection attempt, but via `ApiAccessError` — the very same error kind
an SSL/connection failure produces — not a distinct
MissingConnectionParameter kind. -/
theorem C9_counterexample_missing_param_same_kind :
    connectToApi okRestEnv c9Cp
        = .error (.apiAccessError hostnameMissingMsg)
      ∧ connectToApi sslRestEnv c9CpFull
          = .error (.apiAccessError
              ("Failed to connect to vCenter or ESXi API at vc.example.com:443"
                ++ " due to SSL verification failure"
                ++ " : certificate verify failed"))
      ∧ RestError.isApiAccessError (.apiAccessError hostnameMissingMsg)
          = RestError.isApiAccessError
              (.apiAccessError "any connection failure") := by
  exact ⟨rfl, rfl, rfl⟩

/-- C9 (amended): for every connection-parameter mapping with an empty
hostname, username or password, the client builder fails before any
connection attempt (the outcome is the same for every oracle) with a
field-specific message — but the error kind is `ApiAccessError`, the
kind shared with connection/TLS/login failures. -/
theorem C9_required_params_checked_before_connection :
    ∀ (env : RestEnv) (cp : ConnectionParams),
      (truthyStr cp.hostname = false →
        connectToApi env cp = .error (.apiAccessError hostnameMissingMsg))
      ∧ (truthyStr cp.hostname = true → truthyStr cp.username = false →
        connectToApi env cp = .error (.apiAccessError usernameMissingMsg))
      ∧ (truthyStr cp.hostname = true → truthyStr cp.username = true →
          truthyStr cp.password = false →
        connectToApi env cp
          = .error (.apiAccessError passwordMissingMsg)) := by
  intro env cp
  refine ⟨?_, ?_, ?_⟩
  · intro h1
    simp [connectToApi, validateRequiredConnectionParams, h1]
  · intro h1 h2
    simp [connectToApi, validateRequiredConnectionParams, h1, h2]
  · intro h1 h2 h3
    simp [connectToApi, validateRequiredConnectionParams, h1, h2, h3]

/-- C9 witness: a missing username is rejected with the username-specific
message, for the concrete success-capable oracle. -/
theorem C9_required_params_witness :
    connectToApi okRestEnv c9CpNoUser
      = .error (.apiAccessError usernameMissingMsg) := by
  exact (C9_required_params_checked_before_connection okRestEnv
    c9CpNoUser).2.1 rfl rfl

/-- C10: when all three proxy parameters are supplied, the proxy
configuration step does NOT complete — the misparenthesised
`"{%s}://{%s}:{%s}" % http_proxy_protocol` passes one argument to a
three-specifier format string and raises TypeError, which propagates
out of `connect_to_api` before any authentication; when one of the
three is absent the session proxies are indeed left unchanged. -/
theorem C10_proxy_configuration_raises_type_error :
    configureSessionProxies newSession (some "proxy.example.com")
        (some 8080) (some "http")
        = .error (.typeError "not enough arguments for format string")
      ∧ connectToApi okRestEnv c10Cp
          = .error (.typeError "not enough arguments for format string")
      ∧ configureSessionProxies newSession none (some 8080) (some "http")
          = .ok newSession
      ∧ configureSessionProxies newSession (some "proxy.example.com")
          (some 8080) none
          = .ok newSession := by
  exact ⟨rfl, rfl, rfl, rfl⟩

end VmwareVmware
